import Mathlib

/-!
Verification of the airline customer-support agent demo
(python-backend/main.py): a shallow embedding of the shared context,
the tools, the handoff callbacks, the guardrails and the static agent
graph, followed by theorems settling the specified properties.

Python mutation of the shared context is modelled by explicit state
passing: a tool that in Python mutates the passed-in context and may
raise becomes a Lean function returning the post-call context together
with an Except value (error = the raised AssertionError message).
Crucially, the post-call context reflects every assignment executed
before a raise, matching Python semantics where in-place mutations
survive a later exception.
-/

/-- The shared context record (class AirlineAgentContext): five optional
string fields, all defaulting to unset, mirroring the pydantic model. -/
structure AirlineAgentContext where
  passenger_name : Option String := none
  confirmation_number : Option String := none
  seat_number : Option String := none
  flight_number : Option String := none
  account_number : Option String := none
deriving DecidableEq, Repr

/-- Factory for a new context (create_initial_context): fixed demo
values simulating a reservation-database load. -/
def create_initial_context : AirlineAgentContext :=
  { passenger_name := some "Andre Chaves"
    confirmation_number := some "ABC123"
    seat_number := some "12A"
    flight_number := some "FLT-456"
    account_number := some "98765432" }

/-- Python str.lower on one character, restricted to the character
ranges that occur here: ASCII letters and the Latin-1 uppercase letters
(codepoints 192-222 except the multiplication sign 215) map down by 32,
everything else is unchanged. -/
def pyLower (c : Char) : Char :=
  let n := c.toNat
  if 65 ≤ n ∧ n ≤ 90 then Char.ofNat (n + 32)
  else if 192 ≤ n ∧ n ≤ 222 ∧ n ≠ 215 then Char.ofNat (n + 32)
  else c

/-- Python str.lower on a string: lower each character. -/
def pyLowerStr (s : String) : String :=
  ⟨s.data.map pyLower⟩

/-- Substring occurrence on character lists: the needle occurs starting
at some position of the haystack. -/
def containsSubList (needle : List Char) : List Char → Bool
  | [] => needle.isEmpty
  | c :: rest => needle.isPrefixOf (c :: rest) || containsSubList needle rest

/-- The Python membership test needle in hay on strings. -/
def strContains (hay needle : String) : Bool :=
  containsSubList needle.data hay.data

/-- The FAQ lookup tool (faq_lookup_tool): keyword match against the
lowercased question, first matching category wins; the flight-number
branch reads flight_number from the context (Python truthiness: None
and the empty string both count as absent); default fallback text if
nothing matches. Returns the (unchanged) context and the answer. -/
def faq_lookup_tool (ctx : AirlineAgentContext) (question : String) :
    AirlineAgentContext × String :=
  let q := pyLowerStr question
  if strContains q "bag" || strContains q "baggage" || strContains q "mala" ||
      strContains q "bagagem" then
    (ctx, "Você pode levar uma mala no avião. Ela deve ter até 23 kg e medir no máximo 55cm x 35cm x 25cm.")
  else if strContains q "seats" || strContains q "plane" || strContains q "assento" ||
      strContains q "avião" then
    (ctx, "O avião possui 120 assentos, sendo 22 na classe executiva e 98 na classe econômica. As saídas de emergência ficam nas fileiras 4 e 16. As fileiras 5 a 8 são Economy Plus, com mais espaço para as pernas.")
  else if strContains q "wifi" || strContains q "wi-fi" then
    (ctx, "Temos wifi grátis no avião, basta conectar na rede Airline-Wifi.")
  else if strContains q "flight" || strContains q "voo" || strContains q "vôo" ||
      strContains q "número do voo" then
    match ctx.flight_number with
    | some fn =>
        if fn = "" then (ctx, "Desculpe, não encontrei o número do seu voo.")
        else (ctx, "O número do seu voo é: " ++ fn ++ ".")
    | none => (ctx, "Desculpe, não encontrei o número do seu voo.")
  else
    (ctx, "Desculpe, não sei a resposta para essa pergunta.")

/-- The mutating seat tool (update_seat). Faithful to the statement
order of the source: it first assigns confirmation_number and
seat_number on the context, and only then asserts that flight_number
is present — so when the assertion fails, the returned context already
carries the assignments. -/
def update_seat (ctx : AirlineAgentContext) (confirmation_number new_seat : String) :
    AirlineAgentContext × Except String String :=
  let ctx1 := { ctx with confirmation_number := some confirmation_number,
                         seat_number := some new_seat }
  match ctx1.flight_number with
  | none => (ctx1, Except.error "Número do voo é obrigatório")
  | some _ =>
      (ctx1, Except.ok ("Assento alterado para " ++ new_seat ++
        " para a reserva de confirmação " ++ confirmation_number))

/-- The flight status tool (flight_status_tool): a pure function of the
flight-number argument alone — its Python signature takes no context
wrapper — returning a canned status string. -/
def flight_status_tool (flight_number : String) : String :=
  "O voo " ++ flight_number ++ " está no horário previsto e partirá no portão A10."

/-- The cancellation tool (cancel_flight): asserts flight_number is
present, then returns a confirmation string; it performs no assignment
to the context. -/
def cancel_flight (ctx : AirlineAgentContext) :
    AirlineAgentContext × Except String String :=
  match ctx.flight_number with
  | none => (ctx, Except.error "Número do voo é obrigatório")
  | some fn => (ctx, Except.ok ("O voo " ++ fn ++ " foi cancelado com sucesso."))

/-- Handoff callback on transfer into the seat-booking agent
(on_seat_booking_handoff): backfill flight_number then
confirmation_number with fixed demo defaults when unset. -/
def on_seat_booking_handoff (ctx : AirlineAgentContext) : AirlineAgentContext :=
  let ctx1 :=
    if ctx.flight_number.isNone then { ctx with flight_number := some "FLT-456" }
    else ctx
  if ctx1.confirmation_number.isNone then { ctx1 with confirmation_number := some "ABC123" }
  else ctx1

/-- Handoff callback on transfer into the cancellation agent
(on_cancellation_handoff): backfill confirmation_number then
flight_number with the same fixed demo defaults when unset. -/
def on_cancellation_handoff (ctx : AirlineAgentContext) : AirlineAgentContext :=
  let ctx1 :=
    if ctx.confirmation_number.isNone then { ctx with confirmation_number := some "ABC123" }
    else ctx
  if ctx1.flight_number.isNone then { ctx1 with flight_number := some "FLT-456" }
  else ctx1

/-- Output schema of the relevance classifier (class RelevanceOutput). -/
structure RelevanceOutput where
  reasoning : String
  is_relevant : Bool
deriving DecidableEq, Repr

/-- Output schema of the jailbreak classifier (class JailbreakOutput). -/
structure JailbreakOutput where
  reasoning : String
  is_safe : Bool
deriving DecidableEq, Repr

/-- The framework result type a guardrail returns
(GuardrailFunctionOutput): the classifier output plus the trip bit. -/
structure GuardrailFunctionOutput (α : Type) where
  output_info : α
  tripwire_triggered : Bool
deriving DecidableEq, Repr

/-- The relevance guardrail (relevance_guardrail). The classifier run
(Runner.run on the guardrail agent) is the external oracle, so its
verdict enters as a parameter; the guardrail itself only repackages it,
tripping exactly when is_relevant is false, and performs no assignment
to the shared context — modelled by returning the context unchanged. -/
def relevance_guardrail (ctx : AirlineAgentContext) (final : RelevanceOutput) :
    AirlineAgentContext × GuardrailFunctionOutput RelevanceOutput :=
  (ctx, { output_info := final, tripwire_triggered := !final.is_relevant })

/-- The jailbreak guardrail (jailbreak_guardrail): same shape, tripping
exactly when is_safe is false. -/
def jailbreak_guardrail (ctx : AirlineAgentContext) (final : JailbreakOutput) :
    AirlineAgentContext × GuardrailFunctionOutput JailbreakOutput :=
  (ctx, { output_info := final, tripwire_triggered := !final.is_safe })

/-- Modelled from the spec: the guardrail phase of the turn loop
(sections 4.1 and 4.2 step 1), which lives in the external agents
framework (Runner), not in this repository. Both guardrails of the
active agent are evaluated on the raw input; if any trips, the turn is
refused with that guardrail rationale as the surfaced outcome (some
rationale), the relevance guardrail first in declaration order;
otherwise processing continues (none). The context is threaded through
both guardrail calls. -/
def runTurnGuardrailPhase (ctx : AirlineAgentContext)
    (rel : RelevanceOutput) (jb : JailbreakOutput) :
    AirlineAgentContext × Option String :=
  let r := relevance_guardrail ctx rel
  let j := jailbreak_guardrail r.1 jb
  if r.2.tripwire_triggered then (j.1, some rel.reasoning)
  else if j.2.tripwire_triggered then (j.1, some jb.reasoning)
  else (j.1, none)

/-- The five agents of the static graph, by name. -/
inductive AgentName where
  | triage
  | seatBooking
  | flightStatus
  | cancellation
  | faq
deriving DecidableEq, Repr

/-- The full agent set of the graph. -/
def allAgents : List AgentName :=
  [AgentName.triage, AgentName.seatBooking, AgentName.flightStatus,
   AgentName.cancellation, AgentName.faq]

/-- The static handoff edges: the triage agent lists the four
specialists in declaration order; each specialist, constructed with no
handoffs, gets the triage agent appended afterwards. -/
def handoffs : AgentName → List AgentName
  | AgentName.triage =>
      [AgentName.flightStatus, AgentName.cancellation, AgentName.faq,
       AgentName.seatBooking]
  | AgentName.seatBooking => [AgentName.triage]
  | AgentName.flightStatus => [AgentName.triage]
  | AgentName.cancellation => [AgentName.triage]
  | AgentName.faq => [AgentName.triage]

/-- Reachability along handoff edges: zero or more transitions, each
along an edge of the static graph. -/
inductive HandoffReachable : AgentName → AgentName → Prop where
  | refl (a : AgentName) : HandoffReachable a a
  | step {a b c : AgentName} : b ∈ handoffs a → HandoffReachable b c →
      HandoffReachable a c

/-- The apostrophe character, by codepoint. -/
def apos : Char := Char.ofNat 39

/-- The flight-number test question from the spec, built explicitly. -/
def flightNumberQuestion : String :=
  "What" ++ String.singleton apos ++ "s my flight number?"

/-- The initial demo context with its flight number cleared: the
failing input for the mutating seat tool. -/
def noFlightCtx : AirlineAgentContext :=
  { create_initial_context with flight_number := none }

/-- Every trigger keyword of the FAQ lookup table, across its four
categories, in source order. -/
def triggerKeywords : List String :=
  ["bag", "baggage", "mala", "bagagem", "seats", "plane", "assento", "avião",
   "wifi", "wi-fi", "flight", "voo", "vôo", "número do voo"]

/-- Claim C1 (code bug, general form): for every context with
flight_number unset and any arguments, update_seat does yield the
precondition error — but, contrary to the claim, the post-call context
is mutated: seat_number and confirmation_number already carry the
supplied arguments, because the source assigns both fields before the
assert on flight_number runs. -/
theorem update_seat_missing_flight (ctx : AirlineAgentContext)
    (c s : String) (h : ctx.flight_number = none) :
    (update_seat ctx c s).2 = Except.error "Número do voo é obrigatório"
    ∧ (update_seat ctx c s).1.seat_number = some s
    ∧ (update_seat ctx c s).1.confirmation_number = some c := by
  simp [update_seat, h]

/-- Claim C1, evaluation at the concrete failing input: the demo
context with flight_number cleared, arguments C999 and 5B. -/
theorem update_seat_missing_flight_witness :
    noFlightCtx.flight_number = none
    ∧ (update_seat noFlightCtx "C999" "5B").2 = Except.error "Número do voo é obrigatório"
    ∧ (update_seat noFlightCtx "C999" "5B").1.seat_number = some "5B"
    ∧ (update_seat noFlightCtx "C999" "5B").1.confirmation_number = some "C999" :=
  ⟨rfl, update_seat_missing_flight noFlightCtx "C999" "5B" rfl⟩

/-- Claim C2, counterexample: the question How much luggage can I bring
contains none of the baggage trigger keywords (bag, baggage, mala,
bagagem — the word luggage contains no occurrence of bag), so the tool
returns the default fallback text, not the baggage-allowance text the
claim promises. -/
theorem faq_luggage_returns_fallback_not_baggage :
    (faq_lookup_tool create_initial_context "How much luggage can I bring?").2
      = "Desculpe, não sei a resposta para essa pergunta."
    ∧ (faq_lookup_tool create_initial_context "How much luggage can I bring?").2
      ≠ "Você pode levar uma mala no avião. Ela deve ter até 23 kg e medir no máximo 55cm x 35cm x 25cm." := by
  constructor
  · rfl
  · decide

/-- Claim C2 (amended): the lookup tool is a pure function of the
question and the context flight-number field; the luggage question
returns the default fallback text (not the baggage text); the
flight-number question with flight_number FLT-456 returns the answer
containing FLT-456; with flight_number unset it returns the not-found
text; and any question whose lowercasing contains none of the trigger
keywords gets the default fallback text. -/
theorem faq_lookup_tool_spec :
    ((faq_lookup_tool create_initial_context "How much luggage can I bring?").2
      = "Desculpe, não sei a resposta para essa pergunta.")
    ∧ (∀ ctx : AirlineAgentContext, ctx.flight_number = some "FLT-456" →
        (faq_lookup_tool ctx flightNumberQuestion).2 = "O número do seu voo é: FLT-456."
        ∧ strContains (faq_lookup_tool ctx flightNumberQuestion).2 "FLT-456" = true)
    ∧ (∀ ctx : AirlineAgentContext, ctx.flight_number = none →
        (faq_lookup_tool ctx flightNumberQuestion).2
          = "Desculpe, não encontrei o número do seu voo.")
    ∧ (∀ (ctx : AirlineAgentContext) (q : String),
        (∀ kw ∈ triggerKeywords, strContains (pyLowerStr q) kw = false) →
        (faq_lookup_tool ctx q).2 = "Desculpe, não sei a resposta para essa pergunta.") := by
  refine ⟨rfl, ?_, ?_, ?_⟩
  · intro ctx h
    simp only [faq_lookup_tool, h]
    exact ⟨rfl, rfl⟩
  · intro ctx h
    simp only [faq_lookup_tool, h]
    rfl
  · intro ctx q h
    have h1 := h "bag" (by decide)
    have h2 := h "baggage" (by decide)
    have h3 := h "mala" (by decide)
    have h4 := h "bagagem" (by decide)
    have h5 := h "seats" (by decide)
    have h6 := h "plane" (by decide)
    have h7 := h "assento" (by decide)
    have h8 := h "avião" (by decide)
    have h9 := h "wifi" (by decide)
    have h10 := h "wi-fi" (by decide)
    have h11 := h "flight" (by decide)
    have h12 := h "voo" (by decide)
    have h13 := h "vôo" (by decide)
    have h14 := h "número do voo" (by decide)
    simp [faq_lookup_tool, h1, h2, h3, h4, h5, h6, h7, h8, h9, h10, h11, h12, h13, h14]

/-- Claim C2, witness: the keyword-free question Good evening gets the
fallback text, and the flight-number question on the demo context gets
the FLT-456 answer. -/
theorem faq_lookup_tool_spec_witness :
    (faq_lookup_tool create_initial_context "Good evening").2
      = "Desculpe, não sei a resposta para essa pergunta."
    ∧ (faq_lookup_tool create_initial_context flightNumberQuestion).2
      = "O número do seu voo é: FLT-456." :=
  ⟨faq_lookup_tool_spec.2.2.2 create_initial_context "Good evening" (by decide),
   (faq_lookup_tool_spec.2.1 create_initial_context rfl).1⟩

/-- Claim C3: with flight_number set, update_seat sets
confirmation_number and seat_number to exactly the supplied arguments,
leaves passenger_name, flight_number and account_number unchanged, and
succeeds with the confirmation message. -/
theorem update_seat_with_flight_spec (ctx : AirlineAgentContext)
    (c s fn : String) (h : ctx.flight_number = some fn) :
    (update_seat ctx c s).1.confirmation_number = some c
    ∧ (update_seat ctx c s).1.seat_number = some s
    ∧ (update_seat ctx c s).1.passenger_name = ctx.passenger_name
    ∧ (update_seat ctx c s).1.flight_number = ctx.flight_number
    ∧ (update_seat ctx c s).1.account_number = ctx.account_number
    ∧ (update_seat ctx c s).2
        = Except.ok ("Assento alterado para " ++ s ++
            " para a reserva de confirmação " ++ c) := by
  simp [update_seat, h]

/-- Claim C3, witness at the demo context with arguments XYZ789 and 3C. -/
theorem update_seat_with_flight_spec_witness :
    create_initial_context.flight_number = some "FLT-456"
    ∧ (update_seat create_initial_context "XYZ789" "3C").1.confirmation_number = some "XYZ789"
    ∧ (update_seat create_initial_context "XYZ789" "3C").1.seat_number = some "3C"
    ∧ (update_seat create_initial_context "XYZ789" "3C").1.flight_number = some "FLT-456" :=
  ⟨rfl,
   (update_seat_with_flight_spec create_initial_context "XYZ789" "3C" "FLT-456" rfl).1,
   (update_seat_with_flight_spec create_initial_context "XYZ789" "3C" "FLT-456" rfl).2.1,
   ((update_seat_with_flight_spec create_initial_context "XYZ789" "3C" "FLT-456" rfl).2.2.2.1).trans rfl⟩

/-- Claim C4: cancel_flight fails with the precondition error when
flight_number is unset, succeeds with the confirmation string when it
is set, and in both cases returns the context completely unchanged —
in particular it does not clear flight_number. -/
theorem cancel_flight_spec (ctx : AirlineAgentContext) :
    (ctx.flight_number = none →
      (cancel_flight ctx).2 = Except.error "Número do voo é obrigatório"
      ∧ (cancel_flight ctx).1 = ctx)
    ∧ (∀ fn : String, ctx.flight_number = some fn →
      (cancel_flight ctx).2 = Except.ok ("O voo " ++ fn ++ " foi cancelado com sucesso.")
      ∧ (cancel_flight ctx).1 = ctx) := by
  constructor
  · intro h
    simp [cancel_flight, h]
  · intro fn h
    simp [cancel_flight, h]

/-- Claim C4, witness at the demo context. -/
theorem cancel_flight_spec_witness :
    (cancel_flight create_initial_context).2
      = Except.ok "O voo FLT-456 foi cancelado com sucesso."
    ∧ (cancel_flight create_initial_context).1 = create_initial_context :=
  (cancel_flight_spec create_initial_context).2 "FLT-456" rfl

/-- Claim C5: both handoff callbacks backfill an unset flight_number
with FLT-456 and an unset confirmation_number with ABC123, keep
already-set values, leave the other three fields untouched, and leave
both fields set afterwards. -/
theorem handoff_backfill_spec (ctx : AirlineAgentContext) :
    ((on_seat_booking_handoff ctx).flight_number.isSome
      ∧ (on_seat_booking_handoff ctx).confirmation_number.isSome
      ∧ (on_cancellation_handoff ctx).flight_number.isSome
      ∧ (on_cancellation_handoff ctx).confirmation_number.isSome)
    ∧ (ctx.flight_number = none →
        (on_seat_booking_handoff ctx).flight_number = some "FLT-456"
        ∧ (on_cancellation_handoff ctx).flight_number = some "FLT-456")
    ∧ (∀ v : String, ctx.flight_number = some v →
        (on_seat_booking_handoff ctx).flight_number = some v
        ∧ (on_cancellation_handoff ctx).flight_number = some v)
    ∧ (ctx.confirmation_number = none →
        (on_seat_booking_handoff ctx).confirmation_number = some "ABC123"
        ∧ (on_cancellation_handoff ctx).confirmation_number = some "ABC123")
    ∧ (∀ v : String, ctx.confirmation_number = some v →
        (on_seat_booking_handoff ctx).confirmation_number = some v
        ∧ (on_cancellation_handoff ctx).confirmation_number = some v)
    ∧ ((on_seat_booking_handoff ctx).passenger_name = ctx.passenger_name
      ∧ (on_seat_booking_handoff ctx).seat_number = ctx.seat_number
      ∧ (on_seat_booking_handoff ctx).account_number = ctx.account_number
      ∧ (on_cancellation_handoff ctx).passenger_name = ctx.passenger_name
      ∧ (on_cancellation_handoff ctx).seat_number = ctx.seat_number
      ∧ (on_cancellation_handoff ctx).account_number = ctx.account_number) := by
  obtain ⟨p, c, s, f, a⟩ := ctx
  cases f <;> cases c <;>
    simp [on_seat_booking_handoff, on_cancellation_handoff]

/-- Claim C5, witness at the fully-unset context: both callbacks
backfill both fields with the fixed defaults. -/
theorem handoff_backfill_spec_witness :
    (on_seat_booking_handoff {}).flight_number = some "FLT-456"
    ∧ (on_cancellation_handoff {}).flight_number = some "FLT-456"
    ∧ (on_seat_booking_handoff {}).confirmation_number = some "ABC123"
    ∧ (on_cancellation_handoff {}).confirmation_number = some "ABC123" :=
  ⟨((handoff_backfill_spec {}).2.1 rfl).1,
   ((handoff_backfill_spec {}).2.1 rfl).2,
   ((handoff_backfill_spec {}).2.2.2.1 rfl).1,
   ((handoff_backfill_spec {}).2.2.2.1 rfl).2⟩

/-- Claim C6: the agent set is exactly the five fixed agents; every
non-triage agent has an explicit handoff edge back to triage; any
agent reachable along handoff edges (in particular from triage) stays
in the fixed set; and triage is reachable from every agent. -/
theorem agent_graph_spec :
    (∀ a : AgentName, a ∈ allAgents)
    ∧ (∀ a : AgentName, a ≠ AgentName.triage → AgentName.triage ∈ handoffs a)
    ∧ (∀ a b : AgentName, HandoffReachable a b → b ∈ allAgents)
    ∧ (∀ a : AgentName, HandoffReachable a AgentName.triage) := by
  refine ⟨?_, ?_, ?_, ?_⟩
  · intro a
    cases a <;> decide
  · intro a h
    cases a
    · exact absurd rfl h
    all_goals decide
  · intro a b _
    cases b <;> decide
  · intro a
    cases a
    · exact HandoffReachable.refl _
    all_goals exact HandoffReachable.step (by decide) (HandoffReachable.refl _)

/-- Claim C6, witness at the FAQ agent: it carries the edge back to
triage, and triage is reachable from it. -/
theorem agent_graph_spec_witness :
    AgentName.triage ∈ handoffs AgentName.faq
    ∧ HandoffReachable AgentName.faq AgentName.triage :=
  ⟨agent_graph_spec.2.1 AgentName.faq (by decide),
   agent_graph_spec.2.2.2 AgentName.faq⟩

/-- Claim C7: the status tool is the canned pure function of its single
flight-number argument; it takes no context at all (its embedded type
has no context parameter), so it can neither read nor write the shared
context. -/
theorem flight_status_tool_spec (fn : String) :
    flight_status_tool fn
      = "O voo " ++ fn ++ " está no horário previsto e partirá no portão A10." :=
  rfl

/-- Claim C8: the relevance guardrail trips exactly when the classifier
says not relevant, the jailbreak guardrail exactly when it says not
safe; both surface the classifier output unchanged and leave the
context unchanged; and in the spec-modelled turn-loop guardrail phase
an input judged off-topic is refused with the relevance rationale and
no context mutation. -/
theorem guardrails_spec :
    (∀ (ctx : AirlineAgentContext) (v : RelevanceOutput),
        (relevance_guardrail ctx v).2.tripwire_triggered = !v.is_relevant
        ∧ (relevance_guardrail ctx v).2.output_info = v
        ∧ (relevance_guardrail ctx v).1 = ctx)
    ∧ (∀ (ctx : AirlineAgentContext) (v : JailbreakOutput),
        (jailbreak_guardrail ctx v).2.tripwire_triggered = !v.is_safe
        ∧ (jailbreak_guardrail ctx v).2.output_info = v
        ∧ (jailbreak_guardrail ctx v).1 = ctx)
    ∧ (∀ (ctx : AirlineAgentContext) (rel : RelevanceOutput) (jb : JailbreakOutput),
        rel.is_relevant = false →
        (runTurnGuardrailPhase ctx rel jb).2 = some rel.reasoning
        ∧ (runTurnGuardrailPhase ctx rel jb).1 = ctx) := by
  refine ⟨?_, ?_, ?_⟩
  · intro ctx v
    exact ⟨rfl, rfl, rfl⟩
  · intro ctx v
    exact ⟨rfl, rfl, rfl⟩
  · intro ctx rel jb h
    simp [runTurnGuardrailPhase, relevance_guardrail, jailbreak_guardrail, h]

/-- Claim C8, witness: an off-topic verdict on the demo context is
refused with the relevance rationale and the context kept intact. -/
theorem guardrails_spec_witness :
    (runTurnGuardrailPhase create_initial_context
        { reasoning := "mensagem fora do tema de companhia aérea", is_relevant := false }
        { reasoning := "mensagem segura", is_safe := true }).2
      = some "mensagem fora do tema de companhia aérea"
    ∧ (runTurnGuardrailPhase create_initial_context
        { reasoning := "mensagem fora do tema de companhia aérea", is_relevant := false }
        { reasoning := "mensagem segura", is_safe := true }).1
      = create_initial_context :=
  guardrails_spec.2.2 create_initial_context
    { reasoning := "mensagem fora do tema de companhia aérea", is_relevant := false }
    { reasoning := "mensagem segura", is_safe := true } rfl

/-- Claim C9: the factory returns the fixed fully-populated demo
context, so the flight-number preconditions of update_seat and
cancel_flight hold at session start: both tools succeed on it. -/
theorem create_initial_context_spec :
    create_initial_context.passenger_name = some "Andre Chaves"
    ∧ create_initial_context.confirmation_number = some "ABC123"
    ∧ create_initial_context.seat_number = some "12A"
    ∧ create_initial_context.flight_number = some "FLT-456"
    ∧ create_initial_context.account_number = some "98765432"
    ∧ (∀ c s : String, (update_seat create_initial_context c s).2
        = Except.ok ("Assento alterado para " ++ s ++
            " para a reserva de confirmação " ++ c))
    ∧ (cancel_flight create_initial_context).2
        = Except.ok "O voo FLT-456 foi cancelado com sucesso." := by
  refine ⟨rfl, rfl, rfl, rfl, rfl, ?_, rfl⟩
  intro c s
  rfl

/-- Claim C10: the FAQ lookup tool never changes the context — every
branch of its body returns the context it received. -/
theorem faq_lookup_tool_readonly (ctx : AirlineAgentContext) (q : String) :
    (faq_lookup_tool ctx q).1 = ctx := by
  simp only [faq_lookup_tool]
  repeat' split
  all_goals rfl
